import Mathlib

/-!
Shallow embedding of `src/monitor_web.py` (Web-Ping-Monitor).

Modelling conventions:
* Timestamps are integers (seconds).  The source mixes `time.time()` (used for
  `down_since` arithmetic) and `datetime.utcnow()` (stored into `last_change`
  and the ping log); both advance together, so a single integer clock models
  them.  ISO-8601 timestamp strings compare chronologically, so the SQL
  comparison `timestamp >= since` is integer `≤` here.
* Latencies and percentages are exact rationals.
* The per-host mutable state spread over the dicts `status_data[ip]`,
  `down_since` (key absent ↦ `none`) and `alert_sent[ip]` is merged into one
  `HostState` record.
* Python exceptions are explicit: `PyResult.raised` is an exception escaping
  (or being caught at) the modelled region.
* The SQLite table `ping_log` with its AUTOINCREMENT key is an append-only
  list in insertion order.
-/

namespace WebPingMonitor

/-- Kinds of state-change notifications the monitor loop can send
(`send_webhook` calls at lines 139 and 145 of `monitor_web.py`). -/
inductive Notif where
  | alert
  | recovery
deriving DecidableEq, Repr

/-- Per-host monitor state: `status_data[ip]` (`hostname`, `is_up`,
`latency` — absent before first write, `last_change` — `none` renders as
"Never"), `down_since[ip]` (absent ↦ `none`) and `alert_sent[ip]`. -/
structure HostState where
  hostname : String
  isUp : Bool
  latency : Option ℚ
  lastChange : Option ℤ
  downSince : Option ℤ
  alertSent : Bool
deriving DecidableEq, Repr

/-- Initial per-host state set up at the top of `monitor()` (lines 121-123):
`{"hostname": h, "is_up": True, "last_change": "Never"}`, no `down_since`
entry, `alert_sent[ip] = False`. -/
def initHost (h : String) : HostState :=
  { hostname := h
    isUp := true
    latency := none
    lastChange := none
    downSince := none
    alertSent := false }

/-- One iteration of the per-host body of the `monitor()` loop
(lines 130-148), given the probe outcome `(up, lat)` of `ping_host` and the
cycle clock `now`.  Returns the updated state and the notifications sent:

* `prev = status_data[ip]["is_up"]` is `s.isUp`;
* success branch (line 135): update `is_up`/`latency`/`last_change`, pop
  `down_since`, and if `prev is False and alert_sent[ip]` send RECOVERY and
  clear `alert_sent`;
* failure branch (line 141): insert `down_since[ip] = now` when absent, and
  if `prev and (now - down_since[ip] >= GRACE_PERIOD) and not alert_sent[ip]`
  send ALERT, set `is_up=False, latency=0, last_change=now`, set
  `alert_sent`;
* line 148 finally stores `is_up` unconditionally. -/
def pollStep (grace now : ℤ) (up : Bool) (lat : ℚ) (s : HostState) :
    HostState × List Notif :=
  if up then
    if s.isUp = false ∧ s.alertSent = true then
      ({ s with isUp := true, latency := some lat, lastChange := some now,
                downSince := none, alertSent := false }, [Notif.recovery])
    else
      ({ s with isUp := true, latency := some lat, lastChange := some now,
                downSince := none }, [])
  else
    if s.isUp = true ∧ grace ≤ now - s.downSince.getD now ∧ s.alertSent = false then
      ({ s with downSince := some (s.downSince.getD now), isUp := false,
                latency := some 0, lastChange := some now, alertSent := true },
       [Notif.alert])
    else
      ({ s with downSince := some (s.downSince.getD now), isUp := false }, [])

/-- Iterated `pollStep` over a list of `(now, up, lat)` poll inputs, in
order, collecting every notification sent. -/
def runPolls (grace : ℤ) (s : HostState) :
    List (ℤ × Bool × ℚ) → HostState × List Notif
  | [] => (s, [])
  | (now, up, lat) :: rest =>
    let step := pollStep grace now up lat s
    let next := runPolls grace step.1 rest
    (next.1, step.2 ++ next.2)

/-- Poll inputs for a run of consecutive failed probes at the given times
(`ping_host` returning `(False, 0)` each cycle). -/
def failPolls (times : List ℤ) : List (ℤ × Bool × ℚ) :=
  times.map (fun t => (t, false, 0))

/-- Row of the `ping_log` table (`log_ping`, lines 48-53): ip, hostname,
`is_up` as a boolean, latency, timestamp.  The list order is insertion order,
i.e. ascending AUTOINCREMENT `id`. -/
structure PingRecord where
  ip : String
  hostname : String
  isUp : Bool
  latency : ℚ
  timestamp : ℤ
deriving DecidableEq, Repr

/-- Rows selected by `WHERE ip=? AND timestamp>=?` in `calc_uptime`
(line 67), in table order. -/
def windowRows (ip : String) (since : ℤ) (log : List PingRecord) :
    List PingRecord :=
  log.filter (fun r => r.ip = ip ∧ since ≤ r.timestamp)

/-- Round-half-to-even of a rational to an integer, the tie-breaking rule of
Python's built-in `round` (modelled on exact rationals). -/
def roundHalfEven (q : ℚ) : ℤ :=
  if q - ⌊q⌋ < 1 / 2 then ⌊q⌋
  else if 1 / 2 < q - ⌊q⌋ then ⌊q⌋ + 1
  else if ⌊q⌋ % 2 = 0 then ⌊q⌋ else ⌊q⌋ + 1

/-- Python `round(q, 2)` on exact rationals: round-half-even at two decimal
places. -/
def round2 (q : ℚ) : ℚ :=
  (roundHalfEven (q * 100) : ℚ) / 100

/-- `calc_uptime(ip, minutes)` (lines 63-72): count and up-sum of the rows of
the window, `100.0` when the count is zero (`if not total`), otherwise
`round((up / total) * 100, 2)`.  The window bound
`datetime.utcnow() - timedelta(minutes=minutes)` is taken as the parameter
`since`. -/
def calc_uptime (ip : String) (since : ℤ) (log : List PingRecord) : ℚ :=
  if (windowRows ip since log).length = 0 then 100
  else
    round2 ((((windowRows ip since log).countP (fun r => r.isUp) : ℚ) /
      ((windowRows ip since log).length : ℚ)) * 100)

/-- `get_recent_history(ip, limit)` (lines 55-61):
`SELECT ... WHERE ip=? ORDER BY id DESC LIMIT ?` is `filter`, `reverse`,
`take limit`; the subsequent `rows.reverse()` restores chronological order. -/
def get_recent_history (ip : String) (limit : ℕ) (log : List PingRecord) :
    List PingRecord :=
  (((log.filter (fun r => r.ip = ip)).reverse).take limit).reverse

/-- Outcome of a Python region: `raised` is an exception escaping it (or
caught at its boundary), `ok` a normal value. -/
inductive PyResult (α : Type) where
  | raised : PyResult α
  | ok : α → PyResult α
deriving DecidableEq, Repr

/-- Result of `subprocess.run(["ping", ...])`: exit code and captured
standard output. -/
structure RunResult where
  exitCode : ℤ
  stdout : String
deriving DecidableEq, Repr

/-- Executable splitter over character lists, fuelled to stay structurally
recursive (the fuel is an upper bound on the characters consumed and is
never exhausted when the separator is nonempty).  Reimplements the
semantics of Python `str.split(sep)` / `String.splitOn`: greedy
left-to-right scan for non-overlapping separator occurrences. -/
def splitOnCharsAux (sep : List Char) : ℕ → List Char → List Char → List (List Char)
  | 0, rest, acc => [acc.reverse ++ rest]
  | _ + 1, [], acc => [acc.reverse]
  | fuel + 1, c :: rest, acc =>
    if sep.isPrefixOf (c :: rest) then
      acc.reverse :: splitOnCharsAux sep fuel ((c :: rest).drop sep.length) []
    else
      splitOnCharsAux sep fuel rest (c :: acc)

/-- Split a character list at every occurrence of a nonempty separator. -/
def splitOnChars (sep l : List Char) : List (List Char) :=
  splitOnCharsAux sep (l.length + 1) l []

/-- Python `s.split(sep)` for nonempty `sep`. -/
def strSplitOn (s sep : String) : List String :=
  (splitOnChars sep.data s.data).map (fun l => String.mk l)

/-- Python `s.lower()` (ASCII case folding, all ping output is ASCII). -/
def strToLower (s : String) : String :=
  String.mk (s.data.map Char.toLower)

/-- Whitespace stripped from both ends of a character list. -/
def trimChars (l : List Char) : List Char :=
  ((l.dropWhile Char.isWhitespace).reverse.dropWhile Char.isWhitespace).reverse

/-- Python `s.strip()`. -/
def strTrim (s : String) : String :=
  String.mk (trimChars s.data)

/-- Digits of a decimal string as a natural number (value of `l` when `l` is
all digits). -/
def natOfDigitChars (l : List Char) : ℕ :=
  l.foldl (fun n c => 10 * n + (c.toNat - 48)) 0

/-- Python `float(s)` on plain decimal literals, the shapes ping latency text
takes: optional sign, then digits, digits`.`digits, digits`.` or `.`digits.
Anything else is `none` (a `ValueError`).  Exponent and inf/nan forms, which
never occur in ping output, are out of the modelled grammar and map to
`none`. -/
def floatOfString? (s : String) : Option ℚ :=
  let signed : ℚ × List Char :=
    match s.data with
    | '-' :: rest => (-1, rest)
    | '+' :: rest => (1, rest)
    | l => (1, l)
  match splitOnChars ['.'] signed.2 with
  | [a] =>
    if a.isEmpty ∨ ¬(a.all Char.isDigit) then none
    else some (signed.1 * (natOfDigitChars a : ℚ))
  | [a, b] =>
    if (a.all Char.isDigit) ∧ (b.all Char.isDigit) ∧ ¬(a.isEmpty ∧ b.isEmpty) then
      some (signed.1 *
        ((natOfDigitChars a : ℚ) + (natOfDigitChars b : ℚ) / (10 : ℚ) ^ b.length))
    else none
  | _ => none

/-- Latency extraction loop of `ping_host` (lines 87-90): scan output lines
for the first one containing `time=` (case-insensitively), then evaluate
`float(line.lower().split("time=")[1].split("ms")[0].strip())`; a parse
failure is an exception (`raised`), no matching line leaves latency `None`. -/
def latencyFromLines : List String → PyResult (Option ℚ)
  | [] => PyResult.ok none
  | line :: rest =>
    match strSplitOn (strToLower line) "time=" with
    | _ :: seg :: _ =>
      match floatOfString? (strTrim ((strSplitOn seg "ms").headD seg)) with
      | some v => PyResult.ok (some v)
      | none => PyResult.raised
    | _ => latencyFromLines rest

/-- `ping_host(ip)` (lines 74-93).  The input is the outcome of the
`subprocess.run` call: `raised` for a timeout or any other exception, `ok`
for a completed run.  `is_up` is `returncode == 0`; on success the latency is
extracted from stdout (a parse exception falls into the same `except` branch
as a subprocess exception); the return is `is_up, latency or 0`. -/
def ping_host (res : PyResult RunResult) : Bool × ℚ :=
  match res with
  | PyResult.raised => (false, 0)
  | PyResult.ok r =>
    if r.exitCode = 0 then
      match latencyFromLines (strSplitOn r.stdout "\n") with
      | PyResult.raised => (false, 0)
      | PyResult.ok lat => (true, lat.getD 0)
    else (false, 0)

/-- Outcome of the HTTP POST to the webhook URL. -/
inductive Transport where
  | ok2xx
  | non2xx
  | raises
deriving DecidableEq, Repr

/-- `requests.post(WEBHOOK_URL, ...)` (line 100): a transport error is an
exception; any completed response (2xx or not) returns normally — the
source never inspects the response. -/
def requests_post (tr : Transport) : PyResult Unit :=
  match tr with
  | Transport.raises => PyResult.raised
  | _ => PyResult.ok ()

/-- `send_webhook(message)` (lines 95-102): no URL configured prints a
warning and returns; otherwise the POST runs under `try`/`except` and any
exception is printed and swallowed, so the function always returns
normally. -/
def send_webhook (url : Option String) (tr : Transport) : PyResult Unit :=
  match url with
  | none => PyResult.ok ()
  | some _ =>
    match requests_post tr with
    | PyResult.raised => PyResult.ok ()
    | PyResult.ok _ => PyResult.ok ()

/-- The per-host loop body again, with the `send_webhook` calls and their
transport outcome made explicit.  An exception escaping `send_webhook` would
abort the rest of the per-host body (`raised`); since `send_webhook`
swallows everything, that branch is unreachable. -/
def pollStepE (grace now : ℤ) (up : Bool) (lat : ℚ) (url : Option String)
    (tr : Transport) (s : HostState) : PyResult HostState :=
  if up then
    if s.isUp = false ∧ s.alertSent = true then
      match send_webhook url tr with
      | PyResult.raised => PyResult.raised
      | PyResult.ok _ =>
        PyResult.ok { s with isUp := true, latency := some lat,
                             lastChange := some now, downSince := none,
                             alertSent := false }
    else
      PyResult.ok { s with isUp := true, latency := some lat,
                           lastChange := some now, downSince := none }
  else
    if s.isUp = true ∧ grace ≤ now - s.downSince.getD now ∧ s.alertSent = false then
      match send_webhook url tr with
      | PyResult.raised => PyResult.raised
      | PyResult.ok _ =>
        PyResult.ok { s with downSince := some (s.downSince.getD now),
                             isUp := false, latency := some 0,
                             lastChange := some now, alertSent := true }
    else
      PyResult.ok { s with downSince := some (s.downSince.getD now),
                           isUp := false }

/-- One row of the dashboard table built by `index()` (lines 158-168). -/
structure Row where
  hostname : String
  ip : String
  isUp : Bool
  latency : ℚ
  uptime : ℚ
  lastChange : Option ℤ
deriving DecidableEq, Repr

/-- The `rows` list of `index()` (lines 158-168): one row per entry of
`status_data` in map order, latency defaulted to 0 when never written
(`v.get("latency", 0)`), uptime over the 60-minute window ending now
(`since` parameterises `utcnow - 60min`). -/
def indexRows (log : List PingRecord) (since : ℤ)
    (status : List (String × HostState)) : List Row :=
  status.map (fun p =>
    { hostname := p.2.hostname
      ip := p.1
      isUp := p.2.isUp
      latency := p.2.latency.getD 0
      uptime := calc_uptime p.1 since log
      lastChange := p.2.lastChange })

/-- Display order of the dashboard: unreachable rows before reachable ones,
equal reachability ordered by hostname. -/
def rowLE (a b : Row) : Prop :=
  (a.isUp = false ∧ b.isUp = true) ∨ (a.isUp = b.isUp ∧ a.hostname ≤ b.hostname)

instance : DecidableRel rowLE := fun a b => by
  unfold rowLE
  infer_instance

instance : IsTotal Row rowLE where
  total a b := by
    cases ha : a.isUp <;> cases hb : b.isUp
    · rcases le_total a.hostname b.hostname with h | h
      · exact Or.inl (Or.inr ⟨ha.trans hb.symm, h⟩)
      · exact Or.inr (Or.inr ⟨hb.trans ha.symm, h⟩)
    · exact Or.inl (Or.inl ⟨ha, hb⟩)
    · exact Or.inr (Or.inl ⟨hb, ha⟩)
    · rcases le_total a.hostname b.hostname with h | h
      · exact Or.inl (Or.inr ⟨ha.trans hb.symm, h⟩)
      · exact Or.inr (Or.inr ⟨hb.trans ha.symm, h⟩)

instance : IsTrans Row rowLE where
  trans a b c hab hbc := by
    rcases hab with ⟨haf, hbt⟩ | ⟨hab, hle⟩
    · rcases hbc with ⟨hbf, _⟩ | ⟨hbc, _⟩
      · exact absurd (hbf.symm.trans hbt) (by simp)
      · exact Or.inl ⟨haf, hbc ▸ hbt⟩
    · rcases hbc with ⟨hbf, hct⟩ | ⟨hbc, hle2⟩
      · exact Or.inl ⟨hab.trans hbf, hct⟩
      · exact Or.inr ⟨hab.trans hbc, le_trans hle hle2⟩

/-- Modelled from the spec: the dashboard template `templates/index.html`,
referenced by `render_template("index.html", status=rows, ...)` at line 169,
is not among the provided source files.  Per the spec's display contract —
"Sort order for display: unreachable hosts first, then by hostname" — the
displayed table is the `index()` rows sorted by `rowLE`. -/
def displayRows (log : List PingRecord) (since : ℤ)
    (status : List (String × HostState)) : List Row :=
  List.insertionSort rowLE (indexRows log since status)

/-- Concrete probe record used in the `recentHistory` scenario. -/
def histRec (n : ℕ) : PingRecord :=
  { ip := "10.0.0.1", hostname := "web1", isUp := true, latency := 1,
    timestamp := (n : ℤ) }

/-- Five appended records for the `recentHistory` scenario. -/
def histLog : List PingRecord :=
  [histRec 1, histRec 2, histRec 3, histRec 4, histRec 5]

/-- A completed ping run that failed to resolve its target: nonzero exit
code, no latency line. -/
def unknownHostRun : RunResult :=
  { exitCode := 2, stdout := "ping: unknown host" }

/-- A completed ping run with exit code 0 whose latency field is not a
number. -/
def badLatencyRun : RunResult :=
  { exitCode := 0
    stdout := "64 bytes from 10.0.0.1: icmp_seq=1 ttl=64 time=abc ms" }

/-- A host currently down whose down episode has already been alerted. -/
def downAlerted : HostState :=
  { hostname := "web1", isUp := false, latency := some 0,
    lastChange := some 0, downSince := some 0, alertSent := true }

/-! Helper lemmas about the poll-cycle state machine. -/

/-- A `pollStep` never leaves the host marked up with a pending
`downSince`: the success branch pops `down_since`, the failure branches
store `is_up = False`. -/
theorem pollStep_upInv (grace now : ℤ) (up : Bool) (lat : ℚ) (s : HostState) :
    (pollStep grace now up lat s).1.isUp = true →
    (pollStep grace now up lat s).1.downSince = none := by
  unfold pollStep
  split_ifs <;> simp

/-- Once `alert_sent[ip]` holds, further failed polls send nothing and keep
it set. -/
theorem runPolls_fail_alertSent (grace : ℤ) (times : List ℤ) :
    ∀ s : HostState, s.alertSent = true →
      (runPolls grace s (failPolls times)).2.count Notif.alert = 0 ∧
      (runPolls grace s (failPolls times)).1.alertSent = true := by
  induction times with
  | nil => intro s hs; simpa [runPolls, failPolls] using hs
  | cons t rest ih =>
    intro s hs
    have hstep : pollStep grace t false 0 s =
        ({ s with downSince := some (s.downSince.getD t), isUp := false }, []) := by
      unfold pollStep
      simp [hs]
    have := ih { s with downSince := some (s.downSince.getD t), isUp := false } hs
    simpa [runPolls, failPolls, hstep] using this

/-- Claim C1 — grace-period debounce of down alerts.  Code evaluation at the
spec's own scenario (`gracePeriodSeconds = 5`, polls every second, probe
failing at t = 0..5, fresh UP host): the spec requires no alert through
t = 4 and exactly one ALERT at t = 5 (`5 - 0 >= 5`); the code dispatches no
notification at all during the run and finishes with `alert_sent` still
false, because from t = 1 on `prev` is already `False` while at t = 0 the
elapsed time `now - down_since` is 0.  Sustained failure crossing the
threshold never produces the alert. -/
theorem monitor_scenario_no_alert :
    (runPolls 5 (initHost "web1") (failPolls [0, 1, 2, 3, 4, 5])).2 = [] ∧
    (runPolls 5 (initHost "web1") (failPolls [0, 1, 2, 3, 4, 5])).1.alertSent = false ∧
    (runPolls 5 (initHost "web1") (failPolls [0, 1, 2, 3, 4, 5])).1.isUp = false := by
  decide

/-- The ALERT branch is dead code for every positive grace period: from any
state where being up implies no pending `downSince` (an invariant of every
reachable state, by `pollStep_upInv`), no input sequence whatsoever makes
the monitor dispatch an ALERT. -/
theorem no_alert_when_grace_pos (grace : ℤ) (hg : 0 < grace) :
    ∀ (inputs : List (ℤ × Bool × ℚ)) (s : HostState),
      (s.isUp = true → s.downSince = none) →
      (runPolls grace s inputs).2.count Notif.alert = 0 := by
  intro inputs
  induction inputs with
  | nil => intro s _; simp [runPolls]
  | cons p rest ih =>
    obtain ⟨now, up, lat⟩ := p
    intro s hs
    have hstep : (pollStep grace now up lat s).2.count Notif.alert = 0 := by
      unfold pollStep
      split_ifs with h1 h2 h3
      · simp
      · simp
      · exfalso
        have hds : s.downSince = none := hs h3.1
        have : now - s.downSince.getD now = 0 := by simp [hds]
        rw [this] at h3
        exact absurd (lt_of_lt_of_le hg h3.2.1) (lt_irrefl 0)
      · simp
    have hinv : (pollStep grace now up lat s).1.isUp = true →
        (pollStep grace now up lat s).1.downSince = none :=
      pollStep_upInv grace now up lat s
    have := ih (pollStep grace now up lat s).1 hinv
    simp [runPolls, List.count_append, hstep, this]

/-- Claim C2 — no duplicate alerts.  First part: over any maximal run of
consecutive failed polls, started in any state, at most one ALERT is
dispatched.  Second part: per poll, `alert_sent` flips false→true exactly on
the polls that dispatch an ALERT, and flips true→false exactly on the polls
that dispatch a RECOVERY, so it is true exactly while the current unresolved
down episode has been alerted. -/
theorem alert_once_per_episode_and_flip :
    (∀ (grace : ℤ) (s : HostState) (times : List ℤ),
      (runPolls grace s (failPolls times)).2.count Notif.alert ≤ 1) ∧
    (∀ (grace now : ℤ) (up : Bool) (lat : ℚ) (s : HostState),
      (Notif.alert ∈ (pollStep grace now up lat s).2 ↔
        s.alertSent = false ∧ (pollStep grace now up lat s).1.alertSent = true) ∧
      (Notif.recovery ∈ (pollStep grace now up lat s).2 ↔
        s.alertSent = true ∧ (pollStep grace now up lat s).1.alertSent = false)) := by
  constructor
  · intro grace s times
    induction times generalizing s with
    | nil => simp [runPolls, failPolls]
    | cons t rest ih =>
      by_cases hc : s.isUp = true ∧ grace ≤ t - s.downSince.getD t ∧ s.alertSent = false
      · have hstep : pollStep grace t false 0 s =
            ({ s with downSince := some (s.downSince.getD t), isUp := false,
                      latency := some 0, lastChange := some t, alertSent := true },
             [Notif.alert]) := by
          unfold pollStep
          simp [hc]
        have hrest := (runPolls_fail_alertSent grace rest
          { s with downSince := some (s.downSince.getD t), isUp := false,
                   latency := some 0, lastChange := some t, alertSent := true } rfl).1
        simp [runPolls, failPolls, hstep, List.count_append]
        simpa [failPolls] using hrest
      · have hstep : pollStep grace t false 0 s =
            ({ s with downSince := some (s.downSince.getD t), isUp := false }, []) := by
          unfold pollStep
          simp [hc]
        have := ih { s with downSince := some (s.downSince.getD t), isUp := false }
        simpa [runPolls, failPolls, hstep, List.count_append] using this
  · intro grace now up lat s
    unfold pollStep
    split_ifs with h1 h2 h3
    · simp [h2.2]
    · cases hA : s.alertSent <;> simp [hA]
    · simp [h3.2.2]
    · cases hA : s.alertSent <;> simp [hA]

/-- Claim C3, counterexample.  A host that is already UP (after a successful
poll at t = 0) is polled successfully again at t = 1: no confirmed
reachability transition occurs and no notification is emitted, yet
`last_change` moves from t = 0 to t = 1 — line 136 rewrites `last_change` on
every successful poll, refuting the claim that repeated successful polls of
an UP host never mutate it. -/
theorem lastChange_mutated_on_up_poll :
    ((pollStep 300 0 true 1 (initHost "web1")).1.isUp = true) ∧
    (pollStep 300 1 true 1 (pollStep 300 0 true 1 (initHost "web1")).1).2 = [] ∧
    (pollStep 300 1 true 1 (pollStep 300 0 true 1 (initHost "web1")).1).1.lastChange ≠
      (pollStep 300 0 true 1 (initHost "web1")).1.lastChange := by
  decide

/-- Claim C3 as amended.  `last_change` is set to the poll time on every
successful poll — including repeated successful polls of an already-UP host,
which still emit no notifications — and on ALERT dispatch; a failed poll
that dispatches no ALERT leaves it unchanged. -/
theorem lastChange_update_characterization (grace now : ℤ) (up : Bool)
    (lat : ℚ) (s : HostState) :
    (up = true → (pollStep grace now up lat s).1.lastChange = some now) ∧
    (up = false → Notif.alert ∈ (pollStep grace now up lat s).2 →
      (pollStep grace now up lat s).1.lastChange = some now) ∧
    (up = false → Notif.alert ∉ (pollStep grace now up lat s).2 →
      (pollStep grace now up lat s).1.lastChange = s.lastChange) ∧
    (up = true → s.isUp = true → (pollStep grace now up lat s).2 = []) := by
  refine ⟨fun hup => ?_, fun hup hal => ?_, fun hup hno => ?_, fun hup hprev => ?_⟩
  · unfold pollStep
    simp only [hup]
    split_ifs <;> simp
  · subst hup
    by_cases h : s.isUp = true ∧ grace ≤ now - s.downSince.getD now ∧ s.alertSent = false
    · unfold pollStep
      simp [h]
    · exfalso
      unfold pollStep at hal
      simp [h] at hal
  · subst hup
    by_cases h : s.isUp = true ∧ grace ≤ now - s.downSince.getD now ∧ s.alertSent = false
    · exfalso
      apply hno
      unfold pollStep
      simp [h]
    · unfold pollStep
      simp [h]
  · unfold pollStep
    simp [hup, hprev]

/-- Witness for the amended C3 theorem at concrete inputs: a successful
poll of the fresh (UP) host "a" at t = 7 stamps `last_change = 7` and sends
nothing; with grace period 0 a fresh host failing at t = 3 dispatches the
ALERT and that poll also stamps `last_change = 3`. -/
theorem lastChange_update_characterization_witness :
    (pollStep 300 7 true 1 (initHost "a")).1.lastChange = some 7 ∧
    (pollStep 300 7 true 1 (initHost "a")).2 = [] ∧
    (pollStep 0 3 false 0 (initHost "a")).1.lastChange = some 3 :=
  ⟨(lastChange_update_characterization 300 7 true 1 (initHost "a")).1 rfl,
   (lastChange_update_characterization 300 7 true 1 (initHost "a")).2.2.2 rfl rfl,
   (lastChange_update_characterization 0 3 false 0 (initHost "a")).2.1 rfl (by decide)⟩

/-- Claim C4 — recovery is immediate and idempotent.  From any down state
(`is_up = False`, pending or confirmed), a single successful probe makes the
host UP and pops `down_since` with no grace-period check; the RECOVERY
notification is sent exactly when an alert had been sent for the episode,
and `alert_sent` is clear afterwards. -/
theorem recovery_immediate (grace now : ℤ) (lat : ℚ) (s : HostState)
    (hdown : s.isUp = false) :
    (pollStep grace now true lat s).1.isUp = true ∧
    (pollStep grace now true lat s).1.downSince = none ∧
    (pollStep grace now true lat s).1.alertSent = false ∧
    ((pollStep grace now true lat s).2 = [Notif.recovery] ↔ s.alertSent = true) ∧
    (s.alertSent = false → (pollStep grace now true lat s).2 = []) := by
  unfold pollStep
  cases hA : s.alertSent <;> simp [hdown, hA]

/-- Witness for `recovery_immediate`: the concrete alerted-down host
recovers on one successful probe at t = 9 and a RECOVERY is dispatched. -/
theorem recovery_immediate_witness :
    (pollStep 300 9 true 2 downAlerted).1.isUp = true ∧
    (pollStep 300 9 true 2 downAlerted).1.downSince = none ∧
    (pollStep 300 9 true 2 downAlerted).2 = [Notif.recovery] :=
  ⟨(recovery_immediate 300 9 2 downAlerted rfl).1,
   (recovery_immediate 300 9 2 downAlerted rfl).2.1,
   ((recovery_immediate 300 9 2 downAlerted rfl).2.2.2.1).mpr rfl⟩

/-- Claim C5 — uptime aggregation.  With no `ping_log` rows for the address
inside the window, `calc_uptime` returns 100; with N > 0 rows of which K are
reachable, it returns `round(100 * K / N, 2)`. -/
theorem calc_uptime_spec (ip : String) (since : ℤ) (log : List PingRecord) :
    ((windowRows ip since log).length = 0 → calc_uptime ip since log = 100) ∧
    (0 < (windowRows ip since log).length →
      calc_uptime ip since log =
        round2 (100 * ((windowRows ip since log).countP (fun r => r.isUp) : ℚ) /
          ((windowRows ip since log).length : ℚ))) := by
  constructor
  · intro h
    simp [calc_uptime, h]
  · intro h
    have hne : (windowRows ip since log).length ≠ 0 := h.ne'
    simp only [calc_uptime, hne, if_false]
    congr 1
    ring

/-- Witness for `calc_uptime_spec`: a two-record window for "10.0.0.1" with
one reachable record gives `round(100 * 1 / 2, 2) = 50`. -/
theorem calc_uptime_spec_witness :
    calc_uptime "10.0.0.1" 0
        [{ ip := "10.0.0.1", hostname := "web1", isUp := true, latency := 1,
           timestamp := 10 },
         { ip := "10.0.0.1", hostname := "web1", isUp := false, latency := 0,
           timestamp := 20 }] =
      round2 (100 * ((windowRows "10.0.0.1" 0
        [{ ip := "10.0.0.1", hostname := "web1", isUp := true, latency := 1,
           timestamp := 10 },
         { ip := "10.0.0.1", hostname := "web1", isUp := false, latency := 0,
           timestamp := 20 }]).countP (fun r => r.isUp) : ℚ) /
        ((windowRows "10.0.0.1" 0
        [{ ip := "10.0.0.1", hostname := "web1", isUp := true, latency := 1,
           timestamp := 10 },
         { ip := "10.0.0.1", hostname := "web1", isUp := false, latency := 0,
           timestamp := 20 }]).length : ℚ)) :=
  (calc_uptime_spec "10.0.0.1" 0 _).2 (by decide)

/-- Claim C6 — recent history.  `get_recent_history` returns exactly the
last `limit` appended records for the address, in original (chronological,
oldest-first) order; in particular the spec scenario: after five appended
records for "10.0.0.1", limit 3 returns records 3, 4, 5 in that order. -/
theorem get_recent_history_spec :
    (∀ (ip : String) (limit : ℕ) (log : List PingRecord),
      get_recent_history ip limit log =
        (log.filter (fun r => r.ip = ip)).drop
          ((log.filter (fun r => r.ip = ip)).length - limit)) ∧
    get_recent_history "10.0.0.1" 3 histLog = [histRec 3, histRec 4, histRec 5] := by
  constructor
  · intro ip limit log
    unfold get_recent_history
    rw [← List.rtake_eq_reverse_take_reverse, List.rtake]
  · decide

/-- Claim C7 — the prober is total on network failure.  An exception from
the ping subprocess (timeout etc.) and a nonzero ping exit code (unreachable
host, DNS failure) both yield `(reachable = false, latency = 0)`; neither
escapes `ping_host`. -/
theorem ping_host_total_on_failure :
    (∀ e : PyResult RunResult, e = PyResult.raised → ping_host e = (false, 0)) ∧
    (∀ r : RunResult, r.exitCode ≠ 0 → ping_host (PyResult.ok r) = (false, 0)) := by
  constructor
  · intro e he
    rw [he]
    rfl
  · intro r h
    simp [ping_host, h]

/-- Witness for `ping_host_total_on_failure`: a raised subprocess call and a
ping run exiting with code 2 ("unknown host") both report down with zero
latency. -/
theorem ping_host_total_on_failure_witness :
    ping_host PyResult.raised = (false, 0) ∧
    ping_host (PyResult.ok unknownHostRun) = (false, 0) :=
  ⟨ping_host_total_on_failure.1 PyResult.raised rfl,
   ping_host_total_on_failure.2 unknownHostRun (by decide)⟩

/-- Claim C8 — notification delivery failure does not affect engine state.
For every transport outcome (2xx, non-2xx, exception) and webhook
configuration, the per-host loop body completes normally with exactly the
state of the pure step; moreover a poll on which the ALERT branch fires
leaves `alert_sent = true` regardless of delivery. -/
theorem webhook_failure_state_independent :
    (∀ (grace now : ℤ) (up : Bool) (lat : ℚ) (url : Option String)
        (tr : Transport) (s : HostState),
      pollStepE grace now up lat url tr s =
        PyResult.ok (pollStep grace now up lat s).1) ∧
    (∀ (grace now : ℤ) (lat : ℚ) (s : HostState),
      s.isUp = true → grace ≤ now - s.downSince.getD now → s.alertSent = false →
      (pollStep grace now false lat s).1.alertSent = true ∧
      (pollStep grace now false lat s).2 = [Notif.alert]) := by
  constructor
  · intro grace now up lat url tr s
    have hsend : send_webhook url tr = PyResult.ok () := by
      unfold send_webhook requests_post
      cases url <;> cases tr <;> rfl
    unfold pollStepE pollStep
    split_ifs <;> simp [hsend]
  · intro grace now lat s h1 h2 h3
    unfold pollStep
    simp [h1, h2, h3]

/-- Witness for `webhook_failure_state_independent`: with grace period 0, a
fresh host failing its first probe at t = 0 takes the ALERT branch, and the
body with a raising transport still returns the same state with
`alert_sent = true`. -/
theorem webhook_failure_state_independent_witness :
    pollStepE 0 0 false 0 (some "http://sink") Transport.raises (initHost "w") =
      PyResult.ok (pollStep 0 0 false 0 (initHost "w")).1 ∧
    (pollStep 0 0 false 0 (initHost "w")).1.alertSent = true ∧
    (pollStep 0 0 false 0 (initHost "w")).2 = [Notif.alert] :=
  ⟨webhook_failure_state_independent.1 0 0 false 0 (some "http://sink")
      Transport.raises (initHost "w"),
   (webhook_failure_state_independent.2 0 0 0 (initHost "w") rfl (by decide) rfl).1,
   (webhook_failure_state_independent.2 0 0 0 (initHost "w") rfl (by decide) rfl).2⟩

/-- Claim C9 — dashboard sort order.  For every host map, probe log and
window, the displayed status rows are a permutation of the `index()` rows in
which every earlier row is unreachable-before-reachable and, within equal
reachability, ordered by hostname. -/
theorem display_rows_sorted (log : List PingRecord) (since : ℤ)
    (status : List (String × HostState)) :
    (displayRows log since status).Pairwise
      (fun a b => (a.isUp = true → b.isUp = true) ∧
        (a.isUp = b.isUp → a.hostname ≤ b.hostname)) ∧
    (displayRows log since status).Perm (indexRows log since status) := by
  constructor
  · refine (List.sorted_insertionSort rowLE (indexRows log since status)).imp ?_
    intro a b hab
    rcases hab with ⟨ha, hb⟩ | ⟨he, hle⟩
    · constructor
      · intro h'
        exact absurd (ha.symm.trans h') (by simp)
      · intro h'
        exact absurd (ha.symm.trans (h'.trans hb)) (by simp)
    · exact ⟨fun h' => he ▸ h', fun _ => hle⟩
  · exact List.perm_insertionSort rowLE (indexRows log since status)

/-- Claim C10 — an unparseable latency field on a successful ping marks the
host unreachable.  If the ping subprocess exits 0 but the text after
`time=` raises in `float(...)`, the exception is caught by the same handler
as network failure and the probe reports `(false, 0)`. -/
theorem ping_host_unparseable_latency (r : RunResult) (h0 : r.exitCode = 0)
    (hp : latencyFromLines (strSplitOn r.stdout "\n") = PyResult.raised) :
    ping_host (PyResult.ok r) = (false, 0) := by
  simp [ping_host, h0, hp]

/-- Witness for `ping_host_unparseable_latency`: a zero-exit ping whose
output line reads `... time=abc ms` (latency text not a number) reports the
host down with zero latency. -/
theorem ping_host_unparseable_latency_witness :
    ping_host (PyResult.ok badLatencyRun) = (false, 0) :=
  ping_host_unparseable_latency badLatencyRun rfl (by decide)

end WebPingMonitor
